import Mathlib

/-
Verification development for the ATS Resume Expert application (app.py).

The application is a thin orchestration layer: it rasterizes an uploaded
PDF into per-page JPEG images encoded as base64 payloads, caches the
payload sequence in session state keyed by filename, builds an ordered
content sequence (instruction template, optional job description, page
payloads) and submits it to a remote generative model, converting any
remote fault into an error string.

The embedding below models the pure logic of app.py directly.  External
dependencies that are opaque libraries (pdf2image.convert_from_bytes,
PIL JPEG encoding, the remote model call, genai.configure) appear as
explicit function parameters; the standard base64 codec used by the code
is implemented concretely so that payload validity can be stated and
proved.  Bytes are modelled as natural numbers below 256.
-/

namespace ATSResumeExpert

/-- The 64-character base64 alphabet used by base64.b64encode. -/
def b64Alphabet : List Char :=
  ['A', 'B', 'C', 'D', 'E', 'F', 'G', 'H', 'I', 'J', 'K', 'L', 'M',
   'N', 'O', 'P', 'Q', 'R', 'S', 'T', 'U', 'V', 'W', 'X', 'Y', 'Z',
   'a', 'b', 'c', 'd', 'e', 'f', 'g', 'h', 'i', 'j', 'k', 'l', 'm',
   'n', 'o', 'p', 'q', 'r', 's', 't', 'u', 'v', 'w', 'x', 'y', 'z',
   '0', '1', '2', '3', '4', '5', '6', '7', '8', '9', '+', '/']

/-- Character standing for the 6-bit value n in a base64 string. -/
def b64Char (n : Nat) : Char := b64Alphabet.getD n '='

/-- Six-bit value of a base64 alphabet character, none for non-alphabet
characters (in particular for the padding character). -/
def b64Index (c : Char) : Option Nat := b64Alphabet.indexOf? c

/-- Base64 encoding of a byte sequence (values < 256), 3 bytes to 4
characters, padded with = exactly as base64.b64encode pads. -/
def b64EncodeChunks : List Nat → List Char
  | a :: b :: c :: rest =>
      b64Char (a / 4) :: b64Char (a % 4 * 16 + b / 16) ::
      b64Char (b % 16 * 4 + c / 64) :: b64Char (c % 64) ::
      b64EncodeChunks rest
  | [a, b] => [b64Char (a / 4), b64Char (a % 4 * 16 + b / 16),
               b64Char (b % 16 * 4), '=']
  | [a] => [b64Char (a / 4), b64Char (a % 4 * 16), '=', '=']
  | [] => []

/-- Base64 decoding, inverse of b64EncodeChunks; none on any sequence
that is not well-formed base64. -/
def b64DecodeChunks : List Char → Option (List Nat)
  | c1 :: c2 :: c3 :: c4 :: rest =>
      (b64Index c1).bind fun v1 =>
      (b64Index c2).bind fun v2 =>
      if c3 = '=' then
        if c4 = '=' ∧ rest = [] then some [v1 * 4 + v2 / 16] else none
      else
        (b64Index c3).bind fun v3 =>
        if c4 = '=' then
          if rest = [] then
            some [v1 * 4 + v2 / 16, v2 % 16 * 16 + v3 / 4]
          else none
        else
          (b64Index c4).bind fun v4 =>
          (b64DecodeChunks rest).bind fun tail =>
          some ((v1 * 4 + v2 / 16) :: (v2 % 16 * 16 + v3 / 4) ::
                (v3 % 4 * 64 + v4) :: tail)
  | [] => some []
  | _ => none

/-- String form of the encoder, as base64.b64encode(...).decode(). -/
def b64encodeStr (bs : List Nat) : String := String.mk (b64EncodeChunks bs)

/-- String form of the decoder. -/
def b64decodeStr (s : String) : Option (List Nat) := b64DecodeChunks s.data

theorem b64Index_b64Char_fin : ∀ k : Fin 64, b64Index (b64Char k.val) = some k.val := by
  decide

theorem b64Char_ne_pad_fin : ∀ k : Fin 64, b64Char k.val ≠ '=' := by
  decide

theorem b64Index_b64Char (k : Nat) (h : k < 64) : b64Index (b64Char k) = some k :=
  b64Index_b64Char_fin ⟨k, h⟩

theorem b64Char_ne_pad (k : Nat) (h : k < 64) : b64Char k ≠ '=' :=
  b64Char_ne_pad_fin ⟨k, h⟩

/-- Decoding inverts encoding on every byte sequence. -/
theorem b64_roundtrip : ∀ bs : List Nat, (∀ x ∈ bs, x < 256) →
    b64DecodeChunks (b64EncodeChunks bs) = some bs
  | [], _ => rfl
  | [a], h => by
      have ha : a < 256 := h a (by simp)
      have h1 : a / 4 < 64 := by omega
      have h2 : a % 4 * 16 < 64 := by omega
      simp only [b64EncodeChunks, b64DecodeChunks,
        b64Index_b64Char _ h1, b64Index_b64Char _ h2, Option.some_bind]
      simp only [if_true, and_self, ite_true, Option.some.injEq, List.cons.injEq,
        and_true]
      omega
  | [a, b], h => by
      have ha : a < 256 := h a (by simp)
      have hb : b < 256 := h b (by simp)
      have h1 : a / 4 < 64 := by omega
      have h2 : a % 4 * 16 + b / 16 < 64 := by omega
      have h3 : b % 16 * 4 < 64 := by omega
      simp only [b64EncodeChunks, b64DecodeChunks,
        b64Index_b64Char _ h1, b64Index_b64Char _ h2, b64Index_b64Char _ h3,
        Option.some_bind]
      simp only [b64Char_ne_pad _ h3, ite_false, if_true, ite_true,
        Option.some.injEq, List.cons.injEq, and_true]
      omega
  | a :: b :: c :: rest, h => by
      have ha : a < 256 := h a (by simp)
      have hb : b < 256 := h b (by simp)
      have hc : c < 256 := h c (by simp)
      have ih : b64DecodeChunks (b64EncodeChunks rest) = some rest :=
        b64_roundtrip rest (fun x hx => h x (by simp [hx]))
      have h1 : a / 4 < 64 := by omega
      have h2 : a % 4 * 16 + b / 16 < 64 := by omega
      have h3 : b % 16 * 4 + c / 64 < 64 := by omega
      have h4 : c % 64 < 64 := by omega
      simp only [b64EncodeChunks, b64DecodeChunks,
        b64Index_b64Char _ h1, b64Index_b64Char _ h2,
        b64Index_b64Char _ h3, b64Index_b64Char _ h4,
        Option.some_bind]
      simp only [b64Char_ne_pad _ h3, b64Char_ne_pad _ h4, ite_false, ih,
        Option.some_bind, Option.some.injEq, List.cons.injEq, and_true]
      omega

/-- String-level round trip. -/
theorem b64_roundtrip_str (bs : List Nat) (h : ∀ x ∈ bs, x < 256) :
    b64decodeStr (b64encodeStr bs) = some bs := by
  simpa [b64decodeStr, b64encodeStr] using b64_roundtrip bs h

/-- A rasterized page image as produced by pdf2image: opaque raster data,
modelled as its byte content. -/
abbrev Image := List Nat

/-- One PageImagePayload entry as built by process_and_store_pdf:
a mime-type string and base64-encoded image bytes. -/
structure Payload where
  mime_type : String
  data : String
deriving DecidableEq

/-- An uploaded file: filename plus the byte buffer read from it. -/
structure UploadedFile where
  name : String
  bytes : List Nat
deriving DecidableEq

/-- Streamlit session state used by app.py: st.session_state.pdf_content
and st.session_state.processed_file_name (none models both the key being
absent and it being set to None, which the code treats alike at line 97). -/
structure SessionState where
  pdf_content : Option (List Payload)
  processed_file_name : Option String
deriving DecidableEq

/-- Initial session state (app.py lines 125-128). -/
def initialState : SessionState :=
  { pdf_content := none, processed_file_name := none }

/-- One element of the content sequence sent to the model: a plain text
string or a structured image payload. -/
inductive Content where
  | text (s : String)
  | image (payload : Payload)
deriving DecidableEq

/-- Instruction template for the analysis type Fit Summary & Analysis. -/
def fitSummaryTemplate : String :=
  "You are a world-class resume evaluation expert and hiring manager for a top tech company.\nA candidate\x27s multi-page resume and a job description are provided below.\nYour task is to conduct a comprehensive analysis and provide the following in clear, professional markdown:\n\n1.  **Overall Fit Summary:** A concise paragraph summarizing the candidate\x27s suitability for the role.\n2.  **Estimated ATS Match Score:** A score from 0 to 100, representing the resume\x27s alignment with the job description.\n3.  **Skill Match Analysis:**\n    -   List the key required skills from the job description.\n    -   Indicate with a ✔️ if the skill is clearly present in the resume, or ❌ if it is missing or not prominent.\n4.  **Experience Relevance:** Briefly analyze if the candidate’s work history and projects align with the role\x27s responsibilities.\n5.  **Actionable Improvement Suggestions:** Provide specific, actionable advice on how the candidate can tailor their resume to better match this job (e.g., \"Quantify achievement in Project X,\" \"Add keywords like \x27RESTful API\x27 to your skills section\").\n\n**If the job description is not provided:** Analyze the resume independently. Provide a summary of the candidate\x27s key strengths and suggest 2-3 specific job titles or roles they are well-suited for."

/-- Instruction template for the analysis type Percentage Match. -/
def percentageMatchTemplate : String :=
  "You are an advanced Applicant Tracking System (ATS) simulator.\nGiven the candidate\x27s resume and a job description, your task is to calculate a precise match percentage.\nProvide only the following:\n1.  **Match Percentage (0–100%):** Based on a deep analysis of keyword overlap, required skills, years of experience, and educational qualifications.\n2.  **Rationale:** In 3-4 bullet points, explain the key factors that influenced the score (both positive and negative).\n\n**If the job description is not provided:** Analyze the resume\x27s general strength. Estimate a \"General ATS-Friendliness\" score and suggest 2-3 job roles it\x27s optimized for."

/-- Instruction template for the analysis type Resume Parser. -/
def resumeParserTemplate : String :=
  "You are a highly accurate, machine-learning-powered resume parser.\nYour task is to extract structured information from the provided resume pages. Present the output in clean, well-organized markdown format.\nExtract the following sections if present:\n-   **Contact Information:** (Name, Email, Phone, LinkedIn, GitHub)\n-   **Professional Summary/Objective**\n-   **Work Experience:** (For each job: Job Title, Company, Location, Dates, Key Responsibilities/Achievements as bullet points)\n-   **Education:** (Degree, Major, University, Dates, GPA/Score)\n-   **Technical Skills:** (Categorize into Languages, Frameworks, Tools, etc., if possible)\n-   **Projects:** (Project Title, Tech Stack, Key Features/Contributions as bullet points)\n-   **Certifications & Awards**"

/-- Instruction template for the analysis type Red Flags Checker. -/
def redFlagsTemplate : String :=
  "You are an expert resume auditor for a top recruitment agency.\nScrutinize the provided resume pages for any potential red flags or issues that might cause a recruiter to discard it.\nCheck for and list any of the following problems:\n-   **ATS Formatting Issues:** (e.g., use of columns, tables, images, headers/footers, non-standard fonts that can confuse parsers).\n-   **Vague or Overused Language:** (e.g., \"team player,\" \"results-oriented\" without concrete evidence).\n-   **Missing Quantifiable Results:** (e.g., lack of numbers, percentages, or specific outcomes in project/work descriptions).\n-   **Spelling and Grammatical Errors.**\n-   **Inconsistent Formatting:** (e.g., different date formats, inconsistent use of bolding).\n-   **Unprofessional Details:** (e.g., unprofessional email address, irrelevant personal information)."

/-- The prompt catalog of app.py (lines 17-65): analysis-type identifier
to instruction template, in source order. -/
def PROMPTS : List (String × String) :=
  [("Fit Summary & Analysis", fitSummaryTemplate),
   ("Percentage Match", percentageMatchTemplate),
   ("Resume Parser", resumeParserTemplate),
   ("Red Flags Checker", redFlagsTemplate)]

/-- The payload list built in the loop of process_and_store_pdf (lines
101-110): one entry per page image, mime-type image/jpeg, data the base64
encoding of the page's JPEG bytes.  jpegEncode models PIL's
image.save(..., format=JPEG) byte output. -/
def makePdfParts (jpegEncode : Image → List Nat) (images : List Image) : List Payload :=
  images.map fun image =>
    { mime_type := "image/jpeg", data := b64encodeStr (jpegEncode image) }

/-- Observable outcome of one process_and_store_pdf call: the st.success
page-count notification, the st.error message, a silent cache hit, or the
clearing done for an absent upload. -/
inductive ProcessOutcome where
  | success (pageCount : Nat)
  | failure (message : String)
  | skipped
  | cleared
deriving DecidableEq

/-- process_and_store_pdf (app.py lines 87-118).  convert_from_bytes
models pdf2image.convert_from_bytes, error meaning the try block raised. -/
def process_and_store_pdf
    (convert_from_bytes : List Nat → Except String (List Image))
    (jpegEncode : Image → List Nat) (state : SessionState)
    (uploaded_file : Option UploadedFile) : SessionState × ProcessOutcome :=
  match uploaded_file with
  | none => ({ state with pdf_content := none }, ProcessOutcome.cleared)
  | some file =>
      if state.processed_file_name ≠ some file.name then
        match convert_from_bytes file.bytes with
        | Except.ok images =>
            ({ pdf_content := some (makePdfParts jpegEncode images),
               processed_file_name := some file.name },
             ProcessOutcome.success images.length)
        | Except.error e =>
            ({ state with pdf_content := none },
             ProcessOutcome.failure ("Error processing PDF: " ++ e))
      else (state, ProcessOutcome.skipped)

/-- The content sequence assembled in get_gemini_response (lines 76-80):
the prompt, then the job description only if non-empty (Python string
truthiness), then every page payload in order. -/
def buildContent (prompt : String) (pdf_parts : List Payload)
    (job_description : String) : List Content :=
  let contentToSend := [Content.text prompt]
  let contentToSend :=
    if job_description ≠ "" then contentToSend ++ [Content.text job_description]
    else contentToSend
  contentToSend ++ pdf_parts.map Content.image

/-- get_gemini_response (lines 68-85).  generate_content models the model
construction plus model.generate_content inside the try block: ok carries
response.text, error the exception message. -/
def get_gemini_response
    (generate_content : List Content → Except String String)
    (prompt : String) (pdf_parts : List Payload)
    (job_description : String) : String :=
  match generate_content (buildContent prompt pdf_parts job_description) with
  | Except.ok text => text
  | Except.error e => "An error occurred while calling the Gemini API: " ++ e

/-- Python truthiness of st.session_state.pdf_content at line 161: None
and the empty list are falsy, a non-empty list is truthy. -/
def truthyContent : Option (List Payload) → Bool
  | none => false
  | some parts => !parts.isEmpty

/-- Observable outcome of the Analyze Resume button handler: a rendered
response, the no-document error message, or the KeyError a missing prompt
key would raise. -/
inductive AnalyzeOutcome where
  | rendered (response : String)
  | noDocument
  | keyError
deriving DecidableEq

/-- The Analyze Resume button handler (app.py lines 160-170). -/
def analyzeResume (generate_content : List Content → Except String String)
    (state : SessionState) (analysis_type : String)
    (job_description : String) : AnalyzeOutcome :=
  if truthyContent state.pdf_content then
    match PROMPTS.lookup analysis_type with
    | some prompt_to_use =>
        AnalyzeOutcome.rendered
          (get_gemini_response generate_content prompt_to_use
            (state.pdf_content.getD []) job_description)
    | none => AnalyzeOutcome.keyError
  else AnalyzeOutcome.noDocument

/-- Result of the startup block: either the script proceeds to the UI, or
st.stop halted it after the st.error message. -/
inductive StartupResult where
  | proceed
  | halted (message : String)
deriving DecidableEq

/-- The startup configuration block (app.py lines 10-15).  configure
models genai.configure on the value of os.getenv GOOGLE_API_KEY; an error
means the call raised. -/
def startup (configure : Option String → Except String Unit)
    (google_api_key : Option String) : StartupResult :=
  match configure google_api_key with
  | Except.ok _ => StartupResult.proceed
  | Except.error e =>
      StartupResult.halted
        ("Failed to configure Google API: " ++ e ++
         ". Ensure your GOOGLE_API_KEY is set in the .env file.")

/-- Whether the script goes on to build the UI and accept uploads: only
when startup did not halt. -/
def acceptsUploads : StartupResult → Bool
  | StartupResult.proceed => true
  | StartupResult.halted _ => false

/-- Claim C2: the content sequence built by get_gemini_response is the
template first, then the job-description only if it is non-empty (at
index 1), then all page payloads in order: length 1 + N with an empty
job-description and 2 + N otherwise, and each of the four catalog
templates with a 1-page document and no job description builds a request
of length 2. -/
theorem c2_request_builder_shape (prompt : String) (pdf_parts : List Payload)
    (job_description : String) :
    buildContent prompt pdf_parts job_description =
      (if job_description ≠ "" then
        [Content.text prompt, Content.text job_description]
       else [Content.text prompt]) ++ pdf_parts.map Content.image ∧
    (job_description = "" →
      (buildContent prompt pdf_parts job_description).length = 1 + pdf_parts.length) ∧
    (job_description ≠ "" →
      (buildContent prompt pdf_parts job_description).length = 2 + pdf_parts.length ∧
      (buildContent prompt pdf_parts job_description).get? 1 =
        some (Content.text job_description)) ∧
    (∀ pair ∈ PROMPTS, ∀ p : Payload, (buildContent pair.2 [p] "").length = 2) := by
  refine ⟨?_, ?_, ?_, ?_⟩
  · by_cases h : job_description = "" <;> simp [buildContent, h]
  · intro h
    simp [buildContent, h]
    omega
  · intro h
    refine ⟨?_, ?_⟩
    · simp [buildContent, h]
      omega
    · simp [buildContent, h]
  · intro pair _ p
    simp [buildContent]

/-- Witness for C2: a concrete 1-page build with no job description has
length 2. -/
theorem c2_request_builder_shape_witness :
    (buildContent "Analyze." [{ mime_type := "image/jpeg", data := "AA==" }] "").length = 2 := by
  simpa using
    (c2_request_builder_shape "Analyze."
      [{ mime_type := "image/jpeg", data := "AA==" }] "").2.1 rfl

/-- Claim C3: every failure of the remote call is caught and converted
into the user-displayable error string, and every success returns the
response text; the client always returns a plain string, never an
unhandled fault. -/
theorem c3_inference_client_catches
    (generate_content : List Content → Except String String)
    (prompt : String) (pdf_parts : List Payload) (job_description : String) :
    (∀ e, generate_content (buildContent prompt pdf_parts job_description) = Except.error e →
      get_gemini_response generate_content prompt pdf_parts job_description =
        "An error occurred while calling the Gemini API: " ++ e) ∧
    (∀ t, generate_content (buildContent prompt pdf_parts job_description) = Except.ok t →
      get_gemini_response generate_content prompt pdf_parts job_description = t) := by
  constructor <;> intro x hx <;> simp [get_gemini_response, hx]

/-- Witness for C3: a concrete transport failure becomes the error
string. -/
theorem c3_inference_client_catches_witness :
    get_gemini_response (fun _ => Except.error "quota exceeded") "p" [] "" =
      "An error occurred while calling the Gemini API: quota exceeded" :=
  (c3_inference_client_catches (fun _ => Except.error "quota exceeded") "p" [] "").1
    "quota exceeded" rfl

/-- Claim C4: when the payload sequence is absent or empty the handler
signals the no-document error whatever the inference function is, so no
request is issued; and the request builder never emits an empty content
sequence. -/
theorem c4_no_document_guard
    (generate_content : List Content → Except String String)
    (state : SessionState) (analysis_type job_description : String)
    (hempty : state.pdf_content = none ∨ state.pdf_content = some []) :
    analyzeResume generate_content state analysis_type job_description =
      AnalyzeOutcome.noDocument ∧
    ∀ prompt pdf_parts jd, buildContent prompt pdf_parts jd ≠ [] := by
  constructor
  · rcases hempty with h | h <;> simp [analyzeResume, truthyContent, h]
  · intro prompt parts jd
    by_cases h : jd = "" <;> simp [buildContent, h]

/-- Witness for C4: in the initial session state the handler refuses with
the no-document outcome. -/
theorem c4_no_document_guard_witness :
    analyzeResume (fun _ => Except.error "down") initialState "Resume Parser" "" =
      AnalyzeOutcome.noDocument :=
  (c4_no_document_guard (fun _ => Except.error "down") initialState
    "Resume Parser" "" (Or.inl rfl)).1

/-- Claim C5: when rasterization of the uploaded buffer fails, the
handler signals the processing error to the user and clears the cached
payload, so a payload from an earlier document is not retained. -/
theorem c5_processing_failure_clears_cache
    (convert_from_bytes : List Nat → Except String (List Image))
    (jpegEncode : Image → List Nat) (state : SessionState)
    (file : UploadedFile) (e : String)
    (hname : state.processed_file_name ≠ some file.name)
    (hfail : convert_from_bytes file.bytes = Except.error e) :
    (process_and_store_pdf convert_from_bytes jpegEncode state (some file)).1.pdf_content
      = none ∧
    (process_and_store_pdf convert_from_bytes jpegEncode state (some file)).2
      = ProcessOutcome.failure ("Error processing PDF: " ++ e) := by
  simp [process_and_store_pdf, hname, hfail]

/-- Witness for C5: a concrete failing buffer clears a previously cached
payload and surfaces the error message. -/
theorem c5_processing_failure_clears_cache_witness :
    (process_and_store_pdf (fun _ => Except.error "not a PDF") (fun image => image)
        { pdf_content := some [{ mime_type := "image/jpeg", data := "AA==" }],
          processed_file_name := some "old.pdf" }
        (some { name := "new.pdf", bytes := [1, 2] })).1.pdf_content = none ∧
    (process_and_store_pdf (fun _ => Except.error "not a PDF") (fun image => image)
        { pdf_content := some [{ mime_type := "image/jpeg", data := "AA==" }],
          processed_file_name := some "old.pdf" }
        (some { name := "new.pdf", bytes := [1, 2] })).2
      = ProcessOutcome.failure ("Error processing PDF: " ++ "not a PDF") :=
  c5_processing_failure_clears_cache (fun _ => Except.error "not a PDF")
    (fun image => image)
    { pdf_content := some [{ mime_type := "image/jpeg", data := "AA==" }],
      processed_file_name := some "old.pdf" }
    { name := "new.pdf", bytes := [1, 2] } "not a PDF" (by decide) rfl

/-- Claim C6: the cache is invalidated and the document re-rasterized if
and only if the uploaded filename differs from the stored processed
filename; a same-filename re-upload changes nothing regardless of the
file's content, and a new filename always recomputes from this upload's
rasterization. -/
theorem c6_cache_invalidation_iff_new_filename
    (convert_from_bytes : List Nat → Except String (List Image))
    (jpegEncode : Image → List Nat) (state : SessionState)
    (file : UploadedFile) :
    ((process_and_store_pdf convert_from_bytes jpegEncode state (some file)).2
        = ProcessOutcome.skipped ↔ state.processed_file_name = some file.name) ∧
    (state.processed_file_name = some file.name →
      process_and_store_pdf convert_from_bytes jpegEncode state (some file)
        = (state, ProcessOutcome.skipped)) ∧
    (state.processed_file_name ≠ some file.name →
      (∃ images, convert_from_bytes file.bytes = Except.ok images ∧
        (process_and_store_pdf convert_from_bytes jpegEncode state (some file)).1.pdf_content
          = some (makePdfParts jpegEncode images) ∧
        (process_and_store_pdf convert_from_bytes jpegEncode state (some file)).2
          = ProcessOutcome.success images.length) ∨
      (∃ e, convert_from_bytes file.bytes = Except.error e ∧
        (process_and_store_pdf convert_from_bytes jpegEncode state (some file)).1.pdf_content
          = none ∧
        (process_and_store_pdf convert_from_bytes jpegEncode state (some file)).2
          = ProcessOutcome.failure ("Error processing PDF: " ++ e))) := by
  by_cases hname : state.processed_file_name = some file.name
  · refine ⟨?_, ?_, ?_⟩
    · simp [process_and_store_pdf, hname]
    · intro _
      simp [process_and_store_pdf, hname]
    · intro hc
      exact absurd hname hc
  · refine ⟨?_, ?_, ?_⟩
    · cases hconv : convert_from_bytes file.bytes <;>
        simp [process_and_store_pdf, hname, hconv]
    · intro hc
      exact absurd hc hname
    · intro _
      cases hconv : convert_from_bytes file.bytes with
      | ok images =>
          exact Or.inl ⟨images, rfl, by simp [process_and_store_pdf, hname, hconv]⟩
      | error e =>
          exact Or.inr ⟨e, rfl, by simp [process_and_store_pdf, hname, hconv]⟩

/-- Witness for C6: a concrete same-filename re-upload with different
bytes is skipped and leaves the state untouched. -/
theorem c6_cache_invalidation_iff_new_filename_witness :
    process_and_store_pdf (fun _ => Except.ok [[3], [4]]) (fun image => image)
        { pdf_content := some [{ mime_type := "image/jpeg", data := "AA==" }],
          processed_file_name := some "resume.pdf" }
        (some { name := "resume.pdf", bytes := [7, 8, 9] })
      = ({ pdf_content := some [{ mime_type := "image/jpeg", data := "AA==" }],
           processed_file_name := some "resume.pdf" }, ProcessOutcome.skipped) :=
  (c6_cache_invalidation_iff_new_filename (fun _ => Except.ok [[3], [4]])
    (fun image => image)
    { pdf_content := some [{ mime_type := "image/jpeg", data := "AA==" }],
      processed_file_name := some "resume.pdf" }
    { name := "resume.pdf", bytes := [7, 8, 9] }).2.1 rfl

/-- Claim C7: when the configure call faults at startup (the absent or
invalid credential surfacing as an exception from genai.configure), the
program halts at once with a user-visible message and never goes on to
accept uploads. -/
theorem c7_startup_config_failure
    (configure : Option String → Except String Unit)
    (google_api_key : Option String) (e : String)
    (hfail : configure google_api_key = Except.error e) :
    startup configure google_api_key =
      StartupResult.halted ("Failed to configure Google API: " ++ e ++
        ". Ensure your GOOGLE_API_KEY is set in the .env file.") ∧
    acceptsUploads (startup configure google_api_key) = false := by
  simp [startup, acceptsUploads, hfail]

/-- Witness for C7: a concrete configure fault for an absent key halts
the script. -/
theorem c7_startup_config_failure_witness :
    acceptsUploads (startup (fun _ => Except.error "No API key found") none) = false :=
  (c7_startup_config_failure (fun _ => Except.error "No API key found") none
    "No API key found" rfl).2

/-- Claim C8: the prompt catalog holds exactly the four enumerated
analysis-type identifiers in order, and lookup with each identifier
returns that identifier's instruction template; the catalog is a fixed
definition no operation of the embedding mutates. -/
theorem c8_prompt_catalog :
    PROMPTS.map Prod.fst =
      ["Fit Summary & Analysis", "Percentage Match", "Resume Parser",
       "Red Flags Checker"] ∧
    PROMPTS.length = 4 ∧
    PROMPTS.lookup "Fit Summary & Analysis" = some fitSummaryTemplate ∧
    PROMPTS.lookup "Percentage Match" = some percentageMatchTemplate ∧
    PROMPTS.lookup "Resume Parser" = some resumeParserTemplate ∧
    PROMPTS.lookup "Red Flags Checker" = some redFlagsTemplate := by
  refine ⟨rfl, rfl, ?_, ?_, ?_, ?_⟩ <;> rfl

/-- Claim C9: re-processing the same byte buffer (when the cache check
lets rasterization run) yields payload sequences of equal length and
equal per-page mime-type even when the JPEG encoder output differs
between the runs. -/
theorem c9_reprocessing_idempotent_structure
    (convert_from_bytes : List Nat → Except String (List Image))
    (jpegEncode1 jpegEncode2 : Image → List Nat)
    (state1 state2 : SessionState) (file : UploadedFile)
    (h1 : state1.processed_file_name ≠ some file.name)
    (h2 : state2.processed_file_name ≠ some file.name) :
    Option.map List.length
        (process_and_store_pdf convert_from_bytes jpegEncode1 state1 (some file)).1.pdf_content
      = Option.map List.length
        (process_and_store_pdf convert_from_bytes jpegEncode2 state2 (some file)).1.pdf_content ∧
    Option.map (List.map Payload.mime_type)
        (process_and_store_pdf convert_from_bytes jpegEncode1 state1 (some file)).1.pdf_content
      = Option.map (List.map Payload.mime_type)
        (process_and_store_pdf convert_from_bytes jpegEncode2 state2 (some file)).1.pdf_content := by
  cases hconv : convert_from_bytes file.bytes <;>
    simp [process_and_store_pdf, h1, h2, hconv, makePdfParts, List.map_map,
      Function.comp]

/-- Witness for C9: two concrete runs with different JPEG encoders store
equally long payload sequences. -/
theorem c9_reprocessing_idempotent_structure_witness :
    Option.map List.length
        (process_and_store_pdf (fun _ => Except.ok [[1], [2]]) (fun image => image)
          initialState (some { name := "resume.pdf", bytes := [5] })).1.pdf_content
      = Option.map List.length
        (process_and_store_pdf (fun _ => Except.ok [[1], [2]]) (fun image => 0 :: image)
          initialState (some { name := "resume.pdf", bytes := [5] })).1.pdf_content :=
  (c9_reprocessing_idempotent_structure (fun _ => Except.ok [[1], [2]])
    (fun image => image) (fun image => 0 :: image) initialState initialState
    { name := "resume.pdf", bytes := [5] } (by decide) (by decide)).1

/-- Claim C10: a failed processing of a differently named file clears the
payload but keeps the old processed filename, so a later upload under
that retained name is skipped with no payload cached and every analysis
request is refused with the no-document error. -/
theorem c10_stale_filename_lockout
    (convert_from_bytes : List Nat → Except String (List Image))
    (jpegEncode : Image → List Nat) (state : SessionState)
    (stored_name : String) (file : UploadedFile) (e : String)
    (hstored : state.processed_file_name = some stored_name)
    (hdiff : file.name ≠ stored_name)
    (hfail : convert_from_bytes file.bytes = Except.error e) :
    (process_and_store_pdf convert_from_bytes jpegEncode state (some file)).1.pdf_content
      = none ∧
    (process_and_store_pdf convert_from_bytes jpegEncode state (some file)).1.processed_file_name
      = some stored_name ∧
    (∀ (convert2 : List Nat → Except String (List Image))
       (jpegEncode2 : Image → List Nat) (bytes2 : List Nat),
      process_and_store_pdf convert2 jpegEncode2
          (process_and_store_pdf convert_from_bytes jpegEncode state (some file)).1
          (some { name := stored_name, bytes := bytes2 })
        = ((process_and_store_pdf convert_from_bytes jpegEncode state (some file)).1,
           ProcessOutcome.skipped)) ∧
    (∀ (generate_content : List Content → Except String String)
       (analysis_type job_description : String),
      analyzeResume generate_content
          (process_and_store_pdf convert_from_bytes jpegEncode state (some file)).1
          analysis_type job_description
        = AnalyzeOutcome.noDocument) := by
  have hname : state.processed_file_name ≠ some file.name := by
    rw [hstored]
    intro hcontra
    exact hdiff (Option.some.inj hcontra).symm
  have hs1 : (process_and_store_pdf convert_from_bytes jpegEncode state (some file)).1
      = { state with pdf_content := none } := by
    simp [process_and_store_pdf, hname, hfail]
  refine ⟨?_, ?_, ?_, ?_⟩
  · rw [hs1]
  · rw [hs1]
    exact hstored
  · intro convert2 jpegEncode2 bytes2
    rw [hs1]
    simp [process_and_store_pdf, hstored]
  · intro generate_content analysis_type job_description
    rw [hs1]
    simp [analyzeResume, truthyContent]

/-- Witness for C10: a concrete failed upload under a new name leaves no
payload cached. -/
theorem c10_stale_filename_lockout_witness :
    (process_and_store_pdf (fun _ => Except.error "broken") (fun image => image)
        { pdf_content := some [{ mime_type := "image/jpeg", data := "AA==" }],
          processed_file_name := some "good.pdf" }
        (some { name := "bad.pdf", bytes := [0] })).1.pdf_content = none ∧
    analyzeResume (fun _ => Except.ok "text")
        (process_and_store_pdf (fun _ => Except.error "broken") (fun image => image)
          { pdf_content := some [{ mime_type := "image/jpeg", data := "AA==" }],
            processed_file_name := some "good.pdf" }
          (some { name := "bad.pdf", bytes := [0] })).1
        "Resume Parser" "" = AnalyzeOutcome.noDocument := by
  have h := c10_stale_filename_lockout (fun _ => Except.error "broken")
    (fun image => image)
    { pdf_content := some [{ mime_type := "image/jpeg", data := "AA==" }],
      processed_file_name := some "good.pdf" }
    "good.pdf" { name := "bad.pdf", bytes := [0] } "broken" rfl (by decide) rfl
  exact ⟨h.1, h.2.2.2 (fun _ => Except.ok "text") "Resume Parser" ""⟩

/-- Converter of the C1 counterexample: the uploaded buffer is a valid
PDF that rasterizes to two pages. -/
def c1Convert : List Nat → Except String (List Image) :=
  fun _ => Except.ok [[0], [1]]

/-- Session state of the C1 counterexample: a 1-page payload cached from
an earlier upload named resume.pdf. -/
def c1State : SessionState :=
  { pdf_content := some [{ mime_type := "image/jpeg", data := b64encodeStr [0] }],
    processed_file_name := some "resume.pdf" }

/-- Upload of the C1 counterexample: new content under the old name. -/
def c1File : UploadedFile := { name := "resume.pdf", bytes := [9, 9] }

/-- Claim C1 is false as stated: c1File is a valid 2-page PDF passed to
process_and_store_pdf (c1Convert rasterizes its bytes to 2 pages), yet
after the call the stored payload sequence has 1 entry, because the
filename-keyed cache check skips rasterization for an unchanged name. -/
theorem c1_rasterizer_counterexample :
    c1Convert c1File.bytes = Except.ok [[0], [1]] ∧
    ([[0], [1]] : List Image).length = 2 ∧
    Option.map List.length
        (process_and_store_pdf c1Convert (fun image => image) c1State
          (some c1File)).1.pdf_content
      = some 1 := by
  refine ⟨rfl, rfl, ?_⟩
  rfl

/-- Claim C1 (amended): when the uploaded filename differs from the
stored processed filename, so rasterization actually runs, and the buffer
rasterizes to N pages, the stored payload sequence has exactly N entries
in page order, each with mime-type image/jpeg and valid base64 data that
decodes to that page's JPEG bytes. -/
theorem c1_rasterizer_payloads
    (convert_from_bytes : List Nat → Except String (List Image))
    (jpegEncode : Image → List Nat) (state : SessionState)
    (file : UploadedFile) (images : List Image)
    (hname : state.processed_file_name ≠ some file.name)
    (hok : convert_from_bytes file.bytes = Except.ok images)
    (hbytes : ∀ image ∈ images, ∀ x ∈ jpegEncode image, x < 256) :
    (process_and_store_pdf convert_from_bytes jpegEncode state (some file)).1.pdf_content
      = some (makePdfParts jpegEncode images) ∧
    (makePdfParts jpegEncode images).length = images.length ∧
    (∀ i : Nat, (makePdfParts jpegEncode images)[i]?
        = images[i]?.map fun image =>
            { mime_type := "image/jpeg", data := b64encodeStr (jpegEncode image) }) ∧
    (∀ image ∈ images,
      b64decodeStr (b64encodeStr (jpegEncode image)) = some (jpegEncode image)) := by
  refine ⟨?_, ?_, ?_, ?_⟩
  · simp [process_and_store_pdf, hname, hok]
  · simp [makePdfParts]
  · intro i
    simp [makePdfParts, List.getElem?_map]
  · intro image himg
    exact b64_roundtrip_str _ (hbytes image himg)

/-- Witness for C1 (amended): a concrete fresh upload stores the 1-page
payload and its base64 data decodes back to the JPEG bytes. -/
theorem c1_rasterizer_payloads_witness :
    (process_and_store_pdf (fun _ => Except.ok [[7]]) (fun image => image)
        initialState (some { name := "resume.pdf", bytes := [0] })).1.pdf_content
      = some (makePdfParts (fun image => image) [[7]]) ∧
    b64decodeStr (b64encodeStr [7]) = some [7] := by
  have h := c1_rasterizer_payloads (fun _ => Except.ok [[7]]) (fun image => image)
    initialState { name := "resume.pdf", bytes := [0] } [[7]]
    (by decide) rfl (by decide)
  exact ⟨h.1, h.2.2.2 [7] (by decide)⟩

end ATSResumeExpert
